import Mathlib

/-!
Verification of the A/B push-notification campaign dashboard (`src/app.py`).

The three numeric cores of the program are embedded shallowly:

* `generate_campaign_data` (app.py lines 16-30): the random uniform draws
  become explicit rational parameters `r1 r2 r3`; Python's `int()` truncation
  is `pyint`.
* `calculate_metrics` (app.py lines 32-43): the three guarded percentage
  rates, over exact rationals.
* `run_simulation` (app.py lines 81-182): the orchestration arithmetic —
  the A/B split, the winner selection `if metrics_a CTR > metrics_b CTR`,
  the rollout, and the blended totals with the final CTR.

Counts are modelled as `ℤ` (Python ints) and rates as `ℚ`.  Python floats are
modelled as exact rationals except in the one place where binary64 rounding is
observable: line 81 computes `int(total_users * (ab_test_percentage / 100))`
in double precision, and the rounding of `p / 100` can push the product below
an exact integer boundary (e.g. `int(100 * (29 / 100)) = 28`).  `roundPair`
models IEEE-754 binary64 round-to-nearest, ties-to-even (53-bit significand)
on exact integer fractions, and `float_mul_pct` composes it into line 81.
-/

/-- Four-stage funnel produced by `generate_campaign_data`
(the dict of app.py lines 25-30, keys shortened to the stage names). -/
structure FunnelResult where
  sent : ℤ
  delivered : ℤ
  displayed : ℤ
  clicked : ℤ
  deriving DecidableEq

/-- The three percentage rates produced by `calculate_metrics`
(the dict of app.py lines 39-43). -/
structure MetricsResult where
  delivery_rate : ℚ
  display_rate : ℚ
  click_through_rate : ℚ
  deriving DecidableEq

/-- Python's `int()` applied to a real value: truncation toward zero. -/
def pyint (q : ℚ) : ℤ :=
  if 0 ≤ q then ⌊q⌋ else ⌈q⌉

/-- `generate_campaign_data` (app.py lines 16-30).  The three
`np.random.uniform` draws are passed in as explicit parameters
`r1 ∈ [0.90, 0.98]`, `r2 ∈ [0.85, 0.95]`, `r3 ∈ [0.05, 0.15]`. -/
def generate_campaign_data (users_sent : ℤ) (r1 r2 r3 : ℚ) : FunnelResult :=
  let delivered := pyint ((users_sent : ℚ) * r1)
  let displayed := pyint ((delivered : ℚ) * r2)
  let clicks := pyint ((displayed : ℚ) * r3)
  { sent := users_sent, delivered := delivered, displayed := displayed, clicked := clicks }

/-- `calculate_metrics` (app.py lines 32-43): each rate is guarded by a
`> 0` test on its denominator and is `0` otherwise. -/
def calculate_metrics (data : FunnelResult) : MetricsResult :=
  { delivery_rate :=
      if data.sent > 0 then ((data.delivered : ℚ) / (data.sent : ℚ)) * 100 else 0
    display_rate :=
      if data.delivered > 0 then ((data.displayed : ℚ) / (data.delivered : ℚ)) * 100 else 0
    click_through_rate :=
      if data.delivered > 0 then ((data.clicked : ℚ) / (data.delivered : ℚ)) * 100 else 0 }

/-- Base-2 floor logarithm on `ℕ`, by fuel-bounded halving
(`natLog2 n = ⌊log₂ n⌋` for `n ≥ 1`; `128` halvings cover every value
arising here). -/
def log2Fuel : ℕ → ℕ → ℕ
  | 0, _ => 0
  | fuel + 1, n => if n ≤ 1 then 0 else log2Fuel fuel (n / 2) + 1

/-- Floor logarithm base 2 of a natural number. -/
def natLog2 (n : ℕ) : ℕ :=
  log2Fuel 128 n

/-- Round the nonnegative rational `a / b` (with `b ≠ 0`) to the nearest
IEEE-754 binary64 value, returned as a dyadic pair `(n, e)` of value
`n * 2 ^ e`: the quotient is scaled into the 53-bit significand range
`[2^52, 2^53)` and rounded to the nearest integer with ties to even
(overflow and subnormals are outside the range of values arising here).
The comparison `2 ^ k ≤ a / b` is decided as `b * 2^k ≤ a` resp.
`b ≤ a * 2^(-k)`, uniformly via `Int.toNat`. -/
def roundPair (a b : ℕ) : ℕ × ℤ :=
  if a = 0 then (0, 0)
  else
    let k0 : ℤ := (natLog2 a : ℤ) - (natLog2 b : ℤ)
    let k : ℤ := if b * 2 ^ k0.toNat ≤ a * 2 ^ (-k0).toNat then k0 else k0 - 1
    let e : ℤ := k - 52
    let A : ℕ := a * 2 ^ (-e).toNat
    let B : ℕ := b * 2 ^ e.toNat
    let lo : ℕ := A / B
    let r : ℕ := A % B
    let n : ℕ :=
      if 2 * r < B then lo
      else if B < 2 * r then lo + 1
      else if lo % 2 = 0 then lo else lo + 1
    (n, e)

/-- The rational value of a dyadic pair `(n, e)`, namely `n * 2 ^ e`. -/
def dyadicVal (d : ℕ × ℤ) : ℚ :=
  (d.1 : ℚ) * (2 : ℚ) ^ d.2

/-- Round the nonnegative dyadic value `a * 2 ^ e` to the nearest IEEE-754
binary64 value (correct rounding of a float product whose exact value is
`a * 2 ^ e`). -/
def roundDyadic (a : ℕ) (e : ℤ) : ℕ × ℤ :=
  if 0 ≤ e then roundPair (a * 2 ^ e.toNat) 1 else roundPair a (2 ^ (-e).toNat)

/-- Floor (= truncation, the value being nonnegative) of a dyadic pair. -/
def dyadicFloor (d : ℕ × ℤ) : ℕ :=
  if 0 ≤ d.2 then d.1 * 2 ^ d.2.toNat else d.1 / 2 ^ (-d.2).toNat

/-- Python's `int(t * (p / 100))` for nonnegative ints `t`, `p`, evaluated in
IEEE-754 binary64 arithmetic exactly as CPython does: `p / 100` is the
correctly rounded double quotient, `t * _` the correctly rounded double
product (`t` itself exactly representable, which holds for every
`t < 2^53` and so for the whole configured range), and `int()` truncates
the nonnegative result. -/
def float_mul_pct (t p : ℕ) : ℕ :=
  let d1 := roundPair p 100
  let d2 := roundDyadic (t * d1.1) d1.2
  dyadicFloor d2

/-- Field-wise sum of two funnels (app.py lines 177-180: `total_sent`,
`total_delivered`, `total_displayed`, `total_clicks`). -/
def blend (f g : FunnelResult) : FunnelResult :=
  { sent := f.sent + g.sent
    delivered := f.delivered + g.delivered
    displayed := f.displayed + g.displayed
    clicked := f.clicked + g.clicked }

/-- Everything one run of the script computes from its numeric core. -/
structure RunResult where
  ab_test_users : ℤ
  campaign_a_users : ℤ
  campaign_b_users : ℤ
  remaining_users : ℤ
  data_a : FunnelResult
  data_b : FunnelResult
  metrics_a : MetricsResult
  metrics_b : MetricsResult
  winner_name : String
  winner_data : FunnelResult
  rollout_data : FunnelResult
  rollout_metrics : MetricsResult
  blended : FunnelResult
  final_ctr : ℚ
  deriving DecidableEq

/-- The orchestration of one run (app.py lines 81-182), with the nine uniform
draws (three per `generate_campaign_data` call, for A, B and the rollout)
passed in explicitly.  The two configuration inputs are nonnegative ints
(the sidebar widgets only produce such values).  Line 81
`int(total_users * (ab_test_percentage / 100))` is Python float arithmetic,
modelled exactly by `float_mul_pct`; lines 82-84 are exact int arithmetic
(`//` is floor division, `Int.fdiv`). -/
def run_simulation (total_users ab_test_percentage : ℕ)
    (ra1 ra2 ra3 rb1 rb2 rb3 rr1 rr2 rr3 : ℚ) : RunResult :=
  let ab_test_users : ℤ := (float_mul_pct total_users ab_test_percentage : ℤ)
  let campaign_a_users := Int.fdiv ab_test_users 2
  let campaign_b_users := Int.fdiv ab_test_users 2
  let remaining_users := (total_users : ℤ) - ab_test_users
  let data_a := generate_campaign_data campaign_a_users ra1 ra2 ra3
  let data_b := generate_campaign_data campaign_b_users rb1 rb2 rb3
  let metrics_a := calculate_metrics data_a
  let metrics_b := calculate_metrics data_b
  let winner_name :=
    if metrics_a.click_through_rate > metrics_b.click_through_rate then "Campaign A"
    else "Campaign B"
  let winner_data :=
    if metrics_a.click_through_rate > metrics_b.click_through_rate then data_a
    else data_b
  let rollout_data := generate_campaign_data remaining_users rr1 rr2 rr3
  let rollout_metrics := calculate_metrics rollout_data
  let blended := blend winner_data rollout_data
  let final_ctr :=
    if blended.delivered > 0 then ((blended.clicked : ℚ) / (blended.delivered : ℚ)) * 100
    else 0
  { ab_test_users := ab_test_users
    campaign_a_users := campaign_a_users
    campaign_b_users := campaign_b_users
    remaining_users := remaining_users
    data_a := data_a
    data_b := data_b
    metrics_a := metrics_a
    metrics_b := metrics_b
    winner_name := winner_name
    winner_data := winner_data
    rollout_data := rollout_data
    rollout_metrics := rollout_metrics
    blended := blended
    final_ctr := final_ctr }

/-- The non-increasing chain invariant of a funnel:
`sent ≥ delivered ≥ displayed ≥ clicked ≥ 0`. -/
def chain_invariant (d : FunnelResult) : Prop :=
  d.delivered ≤ d.sent ∧ d.displayed ≤ d.delivered ∧ d.clicked ≤ d.displayed ∧ 0 ≤ d.clicked

instance (d : FunnelResult) : Decidable (chain_invariant d) := by
  unfold chain_invariant
  infer_instance

theorem pyint_eq_floor {q : ℚ} (h : 0 ≤ q) : pyint q = ⌊q⌋ :=
  if_pos h

theorem pyint_mul_bounds {m : ℤ} {r : ℚ} (hm : 0 ≤ m) (h0 : 0 ≤ r) (h1 : r ≤ 1) :
    0 ≤ pyint ((m : ℚ) * r) ∧ pyint ((m : ℚ) * r) ≤ m := by
  have hmq : (0 : ℚ) ≤ (m : ℚ) := by exact_mod_cast hm
  have hq : 0 ≤ (m : ℚ) * r := mul_nonneg hmq h0
  rw [pyint_eq_floor hq]
  refine ⟨Int.floor_nonneg.mpr hq, ?_⟩
  have hle : (m : ℚ) * r ≤ (m : ℚ) := by
    calc (m : ℚ) * r ≤ (m : ℚ) * 1 := mul_le_mul_of_nonneg_left h1 hmq
    _ = (m : ℚ) := mul_one _
  calc ⌊(m : ℚ) * r⌋ ≤ ⌊(m : ℚ)⌋ := Int.floor_le_floor hle
  _ = m := Int.floor_intCast m

theorem ratio_le_100 {a b : ℤ} (hab : a ≤ b) (hb : 0 < b) :
    ((a : ℚ) / (b : ℚ)) * 100 ≤ 100 := by
  have hbq : (0 : ℚ) < (b : ℚ) := by exact_mod_cast hb
  have hdiv : (a : ℚ) / (b : ℚ) ≤ 1 := by
    rw [div_le_one hbq]
    exact_mod_cast hab
  calc (a : ℚ) / (b : ℚ) * 100 ≤ 1 * 100 := mul_le_mul_of_nonneg_right hdiv (by norm_num)
  _ = 100 := one_mul _

theorem winner_aux (x y : ℚ) (da db : FunnelResult) :
    (((if x > y then ("Campaign A" : String) else "Campaign B") = "Campaign A") ↔ x > y) ∧
    (¬ x > y →
      (if x > y then ("Campaign A" : String) else "Campaign B") = "Campaign B" ∧
      (if x > y then da else db) = db) := by
  by_cases h : x > y
  · simp [h]
  · simp [h]

/-- C1: for every `users_sent ≥ 0` and every triple of ratio draws within the
stated bounds (`[0.90, 0.98]`, `[0.85, 0.95]`, `[0.05, 0.15]`), the funnel
returned by `generate_campaign_data` satisfies the non-increasing chain
`sent ≥ delivered ≥ displayed ≥ clicked ≥ 0`. -/
theorem generate_chain_invariant (users_sent : ℤ) (r1 r2 r3 : ℚ)
    (hn : 0 ≤ users_sent)
    (h1l : 9/10 ≤ r1) (h1u : r1 ≤ 98/100)
    (h2l : 85/100 ≤ r2) (h2u : r2 ≤ 95/100)
    (h3l : 5/100 ≤ r3) (h3u : r3 ≤ 15/100) :
    chain_invariant (generate_campaign_data users_sent r1 r2 r3) := by
  have b1 := pyint_mul_bounds hn (le_trans (by norm_num) h1l) (le_trans h1u (by norm_num))
  have b2 := pyint_mul_bounds b1.1 (le_trans (by norm_num) h2l) (le_trans h2u (by norm_num))
  have b3 := pyint_mul_bounds b2.1 (le_trans (by norm_num) h3l) (le_trans h3u (by norm_num))
  exact ⟨b1.2, b2.2, b3.2, b3.1⟩

/-- Witness for C1: `users_sent = 100` with ratio draws `0.95`, `0.9`, `0.1`. -/
theorem generate_chain_invariant_witness :
    chain_invariant (generate_campaign_data 100 (19/20) (9/10) (1/10)) :=
  generate_chain_invariant 100 (19/20) (9/10) (1/10) (by norm_num) (by norm_num)
    (by norm_num) (by norm_num) (by norm_num) (by norm_num) (by norm_num)

/-- C6: `generate_campaign_data 0` yields the all-zero funnel for every
possible ratio draw, deterministically. -/
theorem generate_zero_all_zero (r1 r2 r3 : ℚ) :
    generate_campaign_data 0 r1 r2 r3 = ⟨0, 0, 0, 0⟩ := by
  norm_num [generate_campaign_data, pyint]

/-- C2: Campaign A is the winner if and only if A's click-through rate is
strictly greater than B's; in every other case (including exact ties)
Campaign B is selected and B's funnel becomes the winner funnel. -/
theorem winner_rule (t p : ℕ) (a1 a2 a3 b1 b2 b3 c1 c2 c3 : ℚ) :
    ((run_simulation t p a1 a2 a3 b1 b2 b3 c1 c2 c3).winner_name = "Campaign A" ↔
      (run_simulation t p a1 a2 a3 b1 b2 b3 c1 c2 c3).metrics_a.click_through_rate >
        (run_simulation t p a1 a2 a3 b1 b2 b3 c1 c2 c3).metrics_b.click_through_rate) ∧
    (¬ (run_simulation t p a1 a2 a3 b1 b2 b3 c1 c2 c3).metrics_a.click_through_rate >
        (run_simulation t p a1 a2 a3 b1 b2 b3 c1 c2 c3).metrics_b.click_through_rate →
      (run_simulation t p a1 a2 a3 b1 b2 b3 c1 c2 c3).winner_name = "Campaign B" ∧
      (run_simulation t p a1 a2 a3 b1 b2 b3 c1 c2 c3).winner_data =
        (run_simulation t p a1 a2 a3 b1 b2 b3 c1 c2 c3).data_b) :=
  winner_aux
    ((run_simulation t p a1 a2 a3 b1 b2 b3 c1 c2 c3).metrics_a.click_through_rate)
    ((run_simulation t p a1 a2 a3 b1 b2 b3 c1 c2 c3).metrics_b.click_through_rate)
    ((run_simulation t p a1 a2 a3 b1 b2 b3 c1 c2 c3).data_a)
    ((run_simulation t p a1 a2 a3 b1 b2 b3 c1 c2 c3).data_b)

/-- Witness for C2: with all inputs `0` both click-through rates are `0`
(an exact tie), so Campaign B is selected and its funnel is the winner data. -/
theorem winner_rule_witness :
    (run_simulation 0 0 0 0 0 0 0 0 0 0 0).winner_name = "Campaign B" ∧
    (run_simulation 0 0 0 0 0 0 0 0 0 0 0).winner_data =
      (run_simulation 0 0 0 0 0 0 0 0 0 0 0).data_b :=
  (winner_rule 0 0 0 0 0 0 0 0 0 0 0).2 (by
    norm_num [run_simulation, float_mul_pct, roundPair, roundDyadic, dyadicFloor,
      generate_campaign_data, calculate_metrics, pyint, Int.zero_fdiv])

/-- C3 counterexample: at `total_users = 100`, `ab_test_percentage = 29`
(inside the claimed domain `[0, 100]`) the code's double-precision
`int(total_users * (ab_test_percentage / 100))` yields `28`, one below the
claimed exact `floor(total_users * ab_test_percentage / 100) = 29`, because
`29 / 100` rounds to a double slightly below `0.29`. -/
theorem split_floor_counterexample :
    (run_simulation 100 29 0 0 0 0 0 0 0 0 0).ab_test_users ≠
      ⌊((100 : ℚ) * 29 / 100)⌋ ∧
    (run_simulation 100 29 0 0 0 0 0 0 0 0 0).ab_test_users = 28 ∧
    ⌊((100 : ℚ) * 29 / 100)⌋ = 29 := by
  have h1 : (run_simulation 100 29 0 0 0 0 0 0 0 0 0).ab_test_users = 28 := by decide
  have h2 : ⌊((100 : ℚ) * 29 / 100)⌋ = 29 := by norm_num
  refine ⟨?_, h1, h2⟩
  rw [h1, h2]
  decide

/-- C3 (amended): the orchestration computes
`ab_test_users = int(total_users * (ab_test_percentage / 100))` in IEEE-754
double precision (`float_mul_pct`, which can be one below the exact floor),
`campaign_a_users = campaign_b_users = ab_test_users // 2`, and
`remaining_users = total_users - ab_test_users`; in particular
`total_users = 100000` with `ab_test_percentage = 10` yields
`ab_test_users = 10000`, `5000` per campaign, and `remaining_users = 90000`. -/
theorem split_arithmetic (t p : ℕ) (a1 a2 a3 b1 b2 b3 c1 c2 c3 : ℚ) :
    (run_simulation t p a1 a2 a3 b1 b2 b3 c1 c2 c3).ab_test_users =
      (float_mul_pct t p : ℤ) ∧
    (run_simulation t p a1 a2 a3 b1 b2 b3 c1 c2 c3).campaign_a_users =
      Int.fdiv (float_mul_pct t p : ℤ) 2 ∧
    (run_simulation t p a1 a2 a3 b1 b2 b3 c1 c2 c3).campaign_b_users =
      (run_simulation t p a1 a2 a3 b1 b2 b3 c1 c2 c3).campaign_a_users ∧
    (run_simulation t p a1 a2 a3 b1 b2 b3 c1 c2 c3).remaining_users =
      (t : ℤ) - (float_mul_pct t p : ℤ) ∧
    (run_simulation 100000 10 0 0 0 0 0 0 0 0 0).ab_test_users = 10000 ∧
    (run_simulation 100000 10 0 0 0 0 0 0 0 0 0).campaign_a_users = 5000 ∧
    (run_simulation 100000 10 0 0 0 0 0 0 0 0 0).campaign_b_users = 5000 ∧
    (run_simulation 100000 10 0 0 0 0 0 0 0 0 0).remaining_users = 90000 :=
  ⟨rfl, rfl, rfl, rfl, by decide, by decide, by decide, by decide⟩

/-- C4: the blended `FunnelResult` is the field-wise sum of the winner's
original test-phase funnel and the rollout funnel, and the blended CTR equals
the Metrics Calculator's CTR of that summed funnel; the worked example
`{100, 95, 80, 10} + {900, 850, 700, 90}` gives `{1000, 945, 780, 100}` with
CTR `100 / 945 * 100`. -/
theorem blended_total (t p : ℕ) (a1 a2 a3 b1 b2 b3 c1 c2 c3 : ℚ) :
    (run_simulation t p a1 a2 a3 b1 b2 b3 c1 c2 c3).blended =
      blend (run_simulation t p a1 a2 a3 b1 b2 b3 c1 c2 c3).winner_data
        (run_simulation t p a1 a2 a3 b1 b2 b3 c1 c2 c3).rollout_data ∧
    (run_simulation t p a1 a2 a3 b1 b2 b3 c1 c2 c3).final_ctr =
      (calculate_metrics
        (run_simulation t p a1 a2 a3 b1 b2 b3 c1 c2 c3).blended).click_through_rate ∧
    blend ⟨100, 95, 80, 10⟩ ⟨900, 850, 700, 90⟩ = ⟨1000, 945, 780, 100⟩ ∧
    (calculate_metrics
        (blend ⟨100, 95, 80, 10⟩ ⟨900, 850, 700, 90⟩)).click_through_rate =
      100 / 945 * 100 :=
  ⟨rfl, rfl, by decide, by norm_num [calculate_metrics, blend]⟩

/-- C5: `calculate_metrics` defines every rate with a zero denominator as `0`:
`delivery_rate = 0` when `sent = 0`, and `display_rate = 0` and
`click_through_rate = 0` when `delivered = 0`.  The function is total, so a
zero denominator never raises and never produces an undefined value. -/
theorem calculate_metrics_zero_guards (d : FunnelResult) :
    (d.sent = 0 → (calculate_metrics d).delivery_rate = 0) ∧
    (d.delivered = 0 →
      (calculate_metrics d).display_rate = 0 ∧
      (calculate_metrics d).click_through_rate = 0) := by
  refine ⟨fun h => ?_, fun h => ⟨?_, ?_⟩⟩ <;> simp [calculate_metrics, h]

/-- Witness for C5 at the all-zero funnel. -/
theorem calculate_metrics_zero_guards_witness :
    (calculate_metrics ⟨0, 0, 0, 0⟩).delivery_rate = 0 ∧
    (calculate_metrics ⟨0, 0, 0, 0⟩).display_rate = 0 ∧
    (calculate_metrics ⟨0, 0, 0, 0⟩).click_through_rate = 0 :=
  ⟨(calculate_metrics_zero_guards ⟨0, 0, 0, 0⟩).1 rfl,
   ((calculate_metrics_zero_guards ⟨0, 0, 0, 0⟩).2 rfl).1,
   ((calculate_metrics_zero_guards ⟨0, 0, 0, 0⟩).2 rfl).2⟩

/-- C7: for every funnel satisfying the chain invariant, each of the three
rates returned by `calculate_metrics` is at most `100` — a consequence of the
chain, not a separately enforced check. -/
theorem rates_le_100 (d : FunnelResult) (h : chain_invariant d) :
    (calculate_metrics d).delivery_rate ≤ 100 ∧
    (calculate_metrics d).display_rate ≤ 100 ∧
    (calculate_metrics d).click_through_rate ≤ 100 := by
  obtain ⟨h1, h2, h3, h4⟩ := h
  refine ⟨?_, ?_, ?_⟩
  · show (if d.sent > 0 then ((d.delivered : ℚ) / (d.sent : ℚ)) * 100 else 0) ≤ 100
    split_ifs with hpos
    · exact ratio_le_100 h1 hpos
    · norm_num
  · show (if d.delivered > 0 then ((d.displayed : ℚ) / (d.delivered : ℚ)) * 100 else 0) ≤ 100
    split_ifs with hpos
    · exact ratio_le_100 h2 hpos
    · norm_num
  · show (if d.delivered > 0 then ((d.clicked : ℚ) / (d.delivered : ℚ)) * 100 else 0) ≤ 100
    split_ifs with hpos
    · exact ratio_le_100 (le_trans h3 h2) hpos
    · norm_num

/-- Witness for C7 at the funnel `{100, 95, 80, 10}`. -/
theorem rates_le_100_witness :
    (calculate_metrics ⟨100, 95, 80, 10⟩).delivery_rate ≤ 100 ∧
    (calculate_metrics ⟨100, 95, 80, 10⟩).display_rate ≤ 100 ∧
    (calculate_metrics ⟨100, 95, 80, 10⟩).click_through_rate ≤ 100 :=
  rates_le_100 ⟨100, 95, 80, 10⟩ (by decide)

/-- C8: `calculate_metrics` is deterministic — it is a pure function of the
funnel, so equal inputs give equal `MetricsResult`s. -/
theorem calculate_metrics_deterministic (d1 d2 : FunnelResult) (h : d1 = d2) :
    calculate_metrics d1 = calculate_metrics d2 := by
  rw [h]

/-- Witness for C8 at the funnel `{1000, 900, 800, 100}`. -/
theorem calculate_metrics_deterministic_witness :
    calculate_metrics ⟨1000, 900, 800, 100⟩ = calculate_metrics ⟨1000, 900, 800, 100⟩ :=
  calculate_metrics_deterministic ⟨1000, 900, 800, 100⟩ ⟨1000, 900, 800, 100⟩ rfl

/-- C9: the non-increasing chain invariant is closed under field-wise addition,
so the blended funnel always satisfies the data-model invariant. -/
theorem blend_chain_invariant (f g : FunnelResult)
    (hf : chain_invariant f) (hg : chain_invariant g) :
    chain_invariant (blend f g) := by
  obtain ⟨hf1, hf2, hf3, hf4⟩ := hf
  obtain ⟨hg1, hg2, hg3, hg4⟩ := hg
  exact ⟨add_le_add hf1 hg1, add_le_add hf2 hg2, add_le_add hf3 hg3, add_nonneg hf4 hg4⟩

/-- Witness for C9 at the spec's worked-example funnels. -/
theorem blend_chain_invariant_witness :
    chain_invariant (blend ⟨100, 95, 80, 10⟩ ⟨900, 850, 700, 90⟩) :=
  blend_chain_invariant ⟨100, 95, 80, 10⟩ ⟨900, 850, 700, 90⟩ (by decide) (by decide)

/-- C10: whenever `clicked ≤ displayed`, the click-through rate is at most the
display rate — both share the `delivered` denominator and the same zero
guard. -/
theorem ctr_le_display_rate (d : FunnelResult) (h : d.clicked ≤ d.displayed) :
    (calculate_metrics d).click_through_rate ≤ (calculate_metrics d).display_rate := by
  show (if d.delivered > 0 then ((d.clicked : ℚ) / (d.delivered : ℚ)) * 100 else 0) ≤
    (if d.delivered > 0 then ((d.displayed : ℚ) / (d.delivered : ℚ)) * 100 else 0)
  split_ifs with hpos
  · have hq : (d.clicked : ℚ) ≤ (d.displayed : ℚ) := by exact_mod_cast h
    have hdq : (0 : ℚ) < (d.delivered : ℚ) := by exact_mod_cast hpos
    exact mul_le_mul_of_nonneg_right ((div_le_div_iff_of_pos_right hdq).mpr hq) (by norm_num)
  · exact le_refl 0

/-- Witness for C10 at the funnel `{100, 95, 80, 10}`. -/
theorem ctr_le_display_rate_witness :
    (calculate_metrics ⟨100, 95, 80, 10⟩).click_through_rate ≤
      (calculate_metrics ⟨100, 95, 80, 10⟩).display_rate :=
  ctr_le_display_rate ⟨100, 95, 80, 10⟩ (by decide)
